import Mathlib

/-!
Verification of the rfesi builder and request-dispatch core.

The builder (`EsiBuilder`, `construct_client`, `build`) is embedded from
`src/builders.rs`.  The error enum, the request dispatcher and the
`api_get!` macro expansions are declared outside the files available here,
so they are modelled from the specification where noted.
-/

/-- Validity of a single character of an HTTP header value, embedding the
byte check of the http crate used by `HeaderValue::from_str` in
`construct_client` (`b >= 32 && b != 127 || b == 9`).  Characters at or
above 128 encode to UTF-8 bytes that are all at least 128, hence valid, and
they satisfy the first disjunct, so the per-character check agrees with the
per-byte check. -/
def isValidHeaderChar (c : Char) : Bool :=
  (32 ≤ c.toNat && c.toNat != 127) || c.toNat == 9

/-- A string is a legal HTTP header value when every character is legal. -/
def isValidHeaderValue (s : String) : Bool :=
  s.data.all isValidHeaderChar

/-- Modelled from the spec: the error taxonomy of §7 (the `EsiError` enum is
declared outside the available sources).  `ConfigError` carries the field
name and covers both a missing mandatory builder field and an illegal
user-agent header value, per the spec's taxonomy. -/
inductive EsiError where
  | ConfigError (field : String)
  | AuthFlowError (reason : String)
  | TokenExpiredError
  | TransportError (kind : String)
  | ApiError (status : Nat) (body : String)
  | DeserializationError (raw : String)
deriving DecidableEq, Repr

/-- The source constructs missing-field errors as
`EsiError::EmptyClientValue(field)`; per the spec's taxonomy this is the
configuration-error kind. -/
abbrev EsiError.EmptyClientValue : String → EsiError := EsiError.ConfigError

/-- The HTTP transport produced by `construct_client`: the configured
timeout in milliseconds and the default header list, in insertion order. -/
structure Client where
  timeout_ms : Nat
  default_headers : List (String × String)
deriving DecidableEq, Repr

/-- The builder accumulator from `src/builders.rs`, field for field. -/
structure EsiBuilder where
  version : Option String
  client_id : Option String
  client_secret : Option String
  callback_url : Option String
  access_token : Option String
  access_expiration : Option Nat
  refresh_token : Option String
  user_agent : Option String
  http_timeout : Option Nat
deriving DecidableEq, Repr

/-- `EsiBuilder::new`, i.e. `Default::default()`: every field unset. -/
def EsiBuilder.new : EsiBuilder :=
  ⟨none, none, none, none, none, none, none, none, none⟩

/-- Setter `version` (named `set_version` since the field projection takes
the source name). -/
def EsiBuilder.set_version (b : EsiBuilder) (val : String) : EsiBuilder :=
  { b with version := some val }

/-- Setter `client_id`. -/
def EsiBuilder.set_client_id (b : EsiBuilder) (val : String) : EsiBuilder :=
  { b with client_id := some val }

/-- Setter `client_secret`. -/
def EsiBuilder.set_client_secret (b : EsiBuilder) (val : String) : EsiBuilder :=
  { b with client_secret := some val }

/-- Setter `callback_url`. -/
def EsiBuilder.set_callback_url (b : EsiBuilder) (val : String) : EsiBuilder :=
  { b with callback_url := some val }

/-- Setter `access_token`; the source takes `Option<&str>` and stores an
owned copy. -/
def EsiBuilder.set_access_token (b : EsiBuilder) (val : Option String) : EsiBuilder :=
  { b with access_token := val }

/-- Setter `access_expiration`. -/
def EsiBuilder.set_access_expiration (b : EsiBuilder) (val : Option Nat) : EsiBuilder :=
  { b with access_expiration := val }

/-- Setter `refresh_token`. -/
def EsiBuilder.set_refresh_token (b : EsiBuilder) (val : Option String) : EsiBuilder :=
  { b with refresh_token := val }

/-- Setter `user_agent`. -/
def EsiBuilder.set_user_agent (b : EsiBuilder) (val : String) : EsiBuilder :=
  { b with user_agent := some val }

/-- Setter `http_timeout`. -/
def EsiBuilder.set_http_timeout (b : EsiBuilder) (val : Option Nat) : EsiBuilder :=
  { b with http_timeout := val }

/-- `EsiBuilder::construct_client`: defaults the timeout to 60 000 ms
(`Duration::from_secs(60)`), requires `user_agent` to be set — otherwise
`EmptyClientValue("user_agent")` — and to be a legal header value (the `?`
on `HeaderValue::from_str`), and installs exactly the `User-Agent` and
`Accept: application/json` default headers; the token-header insertion is
left as a TODO in the source, so no other header is added. -/
def construct_client (b : EsiBuilder) (_access_token : Option String) :
    Except EsiError Client :=
  let http_timeout := b.http_timeout.getD 60000
  match b.user_agent with
  | none => .error (EsiError.EmptyClientValue "user_agent")
  | some ua =>
    if isValidHeaderValue ua then
      .ok { timeout_ms := http_timeout,
            default_headers :=
              [("User-Agent", ua), ("Accept", "application/json")] }
    else
      .error (EsiError.ConfigError "user_agent")

/-- The `Esi` instance built by `EsiBuilder::build`. -/
structure Esi where
  version : String
  client_id : String
  client_secret : String
  callback_url : String
  access_token : Option String
  access_expiration : Option Nat
  refresh_token : Option String
  client : Client
deriving DecidableEq, Repr

/-- `EsiBuilder::build`: first constructs the client (checking the user
agent), then fills the `Esi` fields in source order, failing with
`EmptyClientValue` at the first unset mandatory field among `client_id`,
`client_secret`, `callback_url`; the token triple is passed through
unchanged and `version` defaults to `"latest"`. -/
def build (b : EsiBuilder) : Except EsiError Esi :=
  match construct_client b none with
  | .error e => .error e
  | .ok client =>
    match b.client_id with
    | none => .error (EsiError.EmptyClientValue "client_id")
    | some client_id =>
      match b.client_secret with
      | none => .error (EsiError.EmptyClientValue "client_secret")
      | some client_secret =>
        match b.callback_url with
        | none => .error (EsiError.EmptyClientValue "callback_url")
        | some callback_url =>
          .ok { version := b.version.getD "latest"
                client_id := client_id
                client_secret := client_secret
                callback_url := callback_url
                access_token := b.access_token
                access_expiration := b.access_expiration
                refresh_token := b.refresh_token
                client := client }

/-- Modelled from the spec: the authentication requirement tag of an
endpoint descriptor (`Public` or `Authenticated`); the enum is referenced
by `src/groups/character.rs` but declared outside the available sources. -/
inductive RequestType where
  | Public
  | Authenticated
deriving DecidableEq, Repr

/-- The HTTP request a dispatcher call would issue: verb, rendered path and
the full header list (the transport's default headers plus any per-request
headers). -/
structure Request where
  verb : String
  path : String
  headers : List (String × String)
deriving DecidableEq, Repr

/-- Modelled from the spec: the request dispatcher of §4.3 (declared
outside the available sources).  For a `Public` descriptor the request
carries exactly the client's default headers, independent of the token
state.  For an `Authenticated` descriptor it asserts an access token is
present and unexpired — absence of the token or of the expiration, or an
expiration not in the future, fails with `TokenExpiredError` before any
request value is produced — and otherwise attaches
`Authorization: Bearer {token}` per request. -/
def dispatch (esi : Esi) (rt : RequestType) (verb path : String) (now : Nat) :
    Except EsiError Request :=
  match rt with
  | .Public => .ok { verb := verb, path := path, headers := esi.client.default_headers }
  | .Authenticated =>
    match esi.access_token, esi.access_expiration with
    | some tok, some exp =>
      if now < exp then
        .ok { verb := verb, path := path,
              headers := esi.client.default_headers ++
                [("Authorization", "Bearer " ++ tok)] }
      else
        .error EsiError.TokenExpiredError
    | _, _ => .error EsiError.TokenExpiredError

/-- Modelled from the spec: the path substitution of §4.3 — every
occurrence of the placeholder pattern in the template is replaced by the
argument's rendered string, mirroring `str::replace` in the `api_get!`
expansion (declared outside the available sources). -/
def replaceAllFuel (pat rep : List Char) : Nat → List Char → List Char
  | _, [] => []
  | 0, s => s
  | fuel + 1, c :: rest =>
    if pat.isPrefixOf (c :: rest) ∧ pat ≠ [] then
      rep ++ replaceAllFuel pat rep fuel ((c :: rest).drop pat.length)
    else
      c :: replaceAllFuel pat rep fuel rest

/-- Modelled from the spec: full substitution — each match of the pattern
consumes at least one character, so the input length bounds the number of
steps. -/
def replaceAll (pat rep s : List Char) : List Char :=
  replaceAllFuel pat rep s.length s

/-- Modelled from the spec: render a path template by substituting the
placeholder pattern with the value. -/
def renderPath (template pattern value : String) : String :=
  ⟨replaceAll pattern.data value.data template.data⟩

/-- Modelled from the spec: the `api_get!` expansion of
`CharacterGroup::get_public_info` — a `Public` GET whose path substitutes
the caller's `character_id` (rendered in decimal) for the
`"{character_id}"` placeholder of its descriptor. -/
def get_public_info (esi : Esi) (character_id : Nat) (now : Nat) :
    Except EsiError Request :=
  dispatch esi RequestType.Public "GET"
    (renderPath "{character_id}" "{character_id}" (Nat.repr character_id)) now

/-- Modelled from the spec: the `api_get!` expansion of
`CharacterGroup::get_blueprints` — an `Authenticated` GET whose path
substitutes the caller's `character_id` for the `"{character_id}"`
placeholder of its descriptor. -/
def get_blueprints (esi : Esi) (character_id : Nat) (now : Nat) :
    Except EsiError Request :=
  dispatch esi RequestType.Authenticated "GET"
    (renderPath "{character_id}" "{character_id}" (Nat.repr character_id)) now

/-- The number of unset mandatory builder fields. -/
def numUnset (b : EsiBuilder) : Nat :=
  (if b.user_agent.isNone then 1 else 0) +
  (if b.client_id.isNone then 1 else 0) +
  (if b.client_secret.isNone then 1 else 0) +
  (if b.callback_url.isNone then 1 else 0)

/-- The first unset mandatory field in the order `build` actually checks:
`user_agent` (inside `construct_client`, called first), then `client_id`,
`client_secret`, `callback_url`. -/
def firstMissing (b : EsiBuilder) : Option String :=
  if b.user_agent.isNone then some "user_agent"
  else if b.client_id.isNone then some "client_id"
  else if b.client_secret.isNone then some "client_secret"
  else if b.callback_url.isNone then some "callback_url"
  else none

/-- A builder with the four mandatory fields set to `"a"`, `"b"`, `"c"`,
`"d"` and everything else unset, as in the source's `test_builder_valid`. -/
def sampleBuilder : EsiBuilder :=
  ⟨none, some "a", some "b", some "c", none, none, none, some "d", none⟩

/-- The instance `build sampleBuilder` produces. -/
def sampleEsi : Esi :=
  ⟨"latest", "a", "b", "c", none, none, none,
   ⟨60000, [("User-Agent", "d"), ("Accept", "application/json")]⟩⟩

/-- `sampleBuilder` with a pre-existing token triple supplied. -/
def tokenBuilder : EsiBuilder :=
  ⟨none, some "a", some "b", some "c", some "t", some 100, some "r", some "d", none⟩

/-- The instance `build tokenBuilder` produces. -/
def tokenEsi : Esi :=
  ⟨"latest", "a", "b", "c", some "t", some 100, some "r",
   ⟨60000, [("User-Agent", "d"), ("Accept", "application/json")]⟩⟩

lemma build_ok_cases {b : EsiBuilder} {e : Esi} (h : build b = Except.ok e) :
    ∃ cid cs cb ua,
      b.client_id = some cid ∧ b.client_secret = some cs ∧
      b.callback_url = some cb ∧ b.user_agent = some ua ∧
      isValidHeaderValue ua = true ∧
      e = { version := b.version.getD "latest", client_id := cid,
            client_secret := cs, callback_url := cb,
            access_token := b.access_token,
            access_expiration := b.access_expiration,
            refresh_token := b.refresh_token,
            client := { timeout_ms := b.http_timeout.getD 60000,
                        default_headers :=
                          [("User-Agent", ua), ("Accept", "application/json")] } } := by
  obtain ⟨ver, cid0, cs0, cb0, atk, aexp, rtk, ua0, ht0⟩ := b
  cases ua0 with
  | none => simp [build, construct_client] at h
  | some u =>
    by_cases hval : isValidHeaderValue u = true
    · cases cid0 with
      | none => simp [build, construct_client, hval] at h
      | some ci =>
        cases cs0 with
        | none => simp [build, construct_client, hval] at h
        | some se =>
          cases cb0 with
          | none => simp [build, construct_client, hval] at h
          | some cu =>
            refine ⟨ci, se, cu, u, rfl, rfl, rfl, rfl, hval, ?_⟩
            simp [build, construct_client, hval] at h
            exact h.symm
    · simp [build, construct_client, hval] at h

lemma build_firstMissing {b : EsiBuilder} (h1 : 1 ≤ numUnset b)
    (hua : ∀ ua, b.user_agent = some ua → isValidHeaderValue ua = true) :
    build b = .error (EsiError.ConfigError ((firstMissing b).getD "")) := by
  obtain ⟨ver, cid0, cs0, cb0, atk, aexp, rtk, ua0, ht0⟩ := b
  cases ua0 with
  | none => simp [build, construct_client, firstMissing]
  | some u =>
    have hval : isValidHeaderValue u = true := hua u rfl
    cases cid0 with
    | none => simp [build, construct_client, firstMissing, hval]
    | some ci =>
      cases cs0 with
      | none => simp [build, construct_client, firstMissing, hval]
      | some se =>
        cases cb0 with
        | none => simp [build, construct_client, firstMissing, hval]
        | some cu => simp [numUnset] at h1

lemma isPrefixOf_self (l : List Char) : l.isPrefixOf l = true := by
  induction l with
  | nil => rfl
  | cons c cs ih => simp [List.isPrefixOf, ih]

lemma replaceAll_self (pat rep : List Char) (h : pat ≠ []) :
    replaceAll pat rep pat = rep := by
  cases pat with
  | nil => exact absurd rfl h
  | cons c cs =>
    simp [replaceAll, replaceAllFuel, isPrefixOf_self, List.drop_length]

lemma renderPath_subst (v : String) :
    renderPath "{character_id}" "{character_id}" v = v := by
  unfold renderPath
  rw [replaceAll_self _ _ (by decide)]

/-- C1 counterexample: with all four mandatory fields unset, `build`
reports `user_agent` — not `client_id` as the claim's check order
predicts — exactly as the source's `test_builder_missing_value` asserts. -/
theorem all_unset_reports_user_agent :
    build EsiBuilder.new = .error (EsiError.ConfigError "user_agent") ∧
    "user_agent" ≠ "client_id" :=
  ⟨rfl, by decide⟩

/-- C1 (amended): for every builder with more than one mandatory field
unset, any set user agent being a legal header value, `build` fails with a
configuration error naming the first missing mandatory field in the order
actually checked — user agent first (inside `construct_client`), then
client id, client secret, callback URL — so with all four unset the
reported field is `user_agent`. -/
theorem builder_first_missing_order (b : EsiBuilder)
    (h2 : 2 ≤ numUnset b)
    (hua : ∀ ua, b.user_agent = some ua → isValidHeaderValue ua = true) :
    build b = .error (EsiError.ConfigError ((firstMissing b).getD "")) :=
  build_firstMissing (by omega) hua

theorem builder_first_missing_order_witness :
    2 ≤ numUnset EsiBuilder.new ∧
    build EsiBuilder.new =
      .error (EsiError.ConfigError ((firstMissing EsiBuilder.new).getD "")) :=
  ⟨by decide, builder_first_missing_order EsiBuilder.new (by decide)
    (fun _ h => nomatch h)⟩

/-- C2 counterexample: `build` succeeds with all four mandatory fields set
to the empty string — non-emptiness is not enforced, contradicting the
claim that `build()` does not succeed when any of them is empty. -/
theorem build_succeeds_on_empty_strings :
    build ⟨none, some "", some "", some "", none, none, none, some "", none⟩
      = Except.ok
          { version := "latest", client_id := "", client_secret := "",
            callback_url := "", access_token := none, access_expiration := none,
            refresh_token := none,
            client := { timeout_ms := 60000,
                        default_headers :=
                          [("User-Agent", ""), ("Accept", "application/json")] } } :=
  rfl

/-- C2 (amended): on a successful `build` the identity fields, callback URL
and user agent of the instance are exactly the values that were set — which
may be empty strings.  `build` requires only that each mandatory field is
set and the user agent is a legal header value, not that any is
non-empty. -/
theorem build_ok_fields (b : EsiBuilder) (e : Esi) (h : build b = Except.ok e) :
    b.client_id = some e.client_id ∧ b.client_secret = some e.client_secret ∧
    b.callback_url = some e.callback_url ∧
    ∃ ua, b.user_agent = some ua ∧ isValidHeaderValue ua = true ∧
      e.client.default_headers =
        [("User-Agent", ua), ("Accept", "application/json")] := by
  obtain ⟨cid, cs, cb, ua, h1, h2, h3, h4, h5, he⟩ := build_ok_cases h
  subst he
  exact ⟨h1, h2, h3, ua, h4, h5, rfl⟩

theorem build_ok_fields_witness :
    sampleBuilder.client_id = some sampleEsi.client_id ∧
    sampleBuilder.client_secret = some sampleEsi.client_secret ∧
    sampleBuilder.callback_url = some sampleEsi.callback_url ∧
    ∃ ua, sampleBuilder.user_agent = some ua ∧ isValidHeaderValue ua = true ∧
      sampleEsi.client.default_headers =
        [("User-Agent", ua), ("Accept", "application/json")] :=
  build_ok_fields sampleBuilder sampleEsi rfl

/-- C3: with all four mandatory fields set, the user agent a legal header
value, and `version` and `http_timeout` never set, `build` succeeds and the
instance's version is `"latest"` and its HTTP timeout is 60 000 ms. -/
theorem build_defaults (b : EsiBuilder) (cid cs cb ua : String)
    (hcid : b.client_id = some cid) (hcs : b.client_secret = some cs)
    (hcb : b.callback_url = some cb) (hua : b.user_agent = some ua)
    (hval : isValidHeaderValue ua = true)
    (hver : b.version = none) (ht : b.http_timeout = none) :
    ∃ e, build b = Except.ok e ∧ e.version = "latest" ∧
      e.client.timeout_ms = 60000 := by
  refine ⟨{ version := "latest", client_id := cid, client_secret := cs,
            callback_url := cb, access_token := b.access_token,
            access_expiration := b.access_expiration,
            refresh_token := b.refresh_token,
            client := { timeout_ms := 60000,
                        default_headers :=
                          [("User-Agent", ua), ("Accept", "application/json")] } },
         ?_, rfl, rfl⟩
  simp [build, construct_client, hcid, hcs, hcb, hua, hval, hver, ht]

theorem build_defaults_witness :
    isValidHeaderValue "d" = true ∧
    ∃ e, build sampleBuilder = Except.ok e ∧ e.version = "latest" ∧
      e.client.timeout_ms = 60000 :=
  ⟨by decide,
   build_defaults sampleBuilder "a" "b" "c" "d" rfl rfl rfl rfl (by decide) rfl rfl⟩

/-- C7 counterexample: with exactly one mandatory field (`client_id`)
unset, the others set but the user agent not a legal header value, `build`
fails naming `user_agent`, not the unset field `client_id`. -/
theorem one_unset_counterexample :
    build ⟨none, none, some "b", some "c", none, none, none, some "\n", none⟩
      = .error (EsiError.ConfigError "user_agent") ∧
    "user_agent" ≠ "client_id" :=
  ⟨rfl, by decide⟩

/-- C7 (amended): for every builder with exactly one mandatory field unset
and the other three set to valid values — in particular a set user agent
being a legal header value — `build` fails with a configuration error
naming exactly that unset field (the first and only entry of the check
order that is missing). -/
theorem one_unset_reports_field (b : EsiBuilder)
    (h1 : numUnset b = 1)
    (hua : ∀ ua, b.user_agent = some ua → isValidHeaderValue ua = true) :
    build b = .error (EsiError.ConfigError ((firstMissing b).getD "")) :=
  build_firstMissing (by omega) hua

theorem one_unset_reports_field_witness :
    numUnset ⟨none, none, some "b", some "c", none, none, none, some "d", none⟩ = 1 ∧
    build ⟨none, none, some "b", some "c", none, none, none, some "d", none⟩
      = .error (EsiError.ConfigError
          ((firstMissing
              ⟨none, none, some "b", some "c", none, none, none, some "d", none⟩).getD "")) :=
  ⟨by decide,
   one_unset_reports_field _ (by decide)
     (fun ua h => by injection h with h2; subst h2; decide)⟩

/-- C9: substituting the placeholder of the template `"{character_id}"`
replaces it by the argument's canonical decimal rendering — for every
integer argument the rendered segment is its decimal string, and for 42 it
is exactly `"42"`. -/
theorem path_substitution (n : Nat) :
    renderPath "{character_id}" "{character_id}" (Nat.repr n) = Nat.repr n ∧
    renderPath "{character_id}" "{character_id}" (Nat.repr 42) = "42" :=
  ⟨renderPath_subst (Nat.repr n),
   by rw [renderPath_subst (Nat.repr 42)]; rfl⟩

/-- C4: a set user agent that is not a legal HTTP header value makes
`build` fail with the configuration-error kind naming `user_agent` — the
same kind (`ConfigError`, the source's `EmptyClientValue`) as a missing
mandatory field — and never with the transport-error kind. -/
theorem invalid_user_agent_config_error (b : EsiBuilder) (ua : String)
    (hua : b.user_agent = some ua) (hval : isValidHeaderValue ua = false) :
    build b = .error (EsiError.ConfigError "user_agent") ∧
    (∀ kind, build b ≠ .error (EsiError.TransportError kind)) ∧
    EsiError.EmptyClientValue "user_agent" = EsiError.ConfigError "user_agent" := by
  have hb : build b = .error (EsiError.ConfigError "user_agent") := by
    simp [build, construct_client, hua, hval]
  refine ⟨hb, ?_, rfl⟩
  intro kind hk
  rw [hb] at hk
  simp at hk

theorem invalid_user_agent_config_error_witness :
    (⟨none, none, none, none, none, none, none, some "\n", none⟩ :
        EsiBuilder).user_agent = some "\n" ∧
    isValidHeaderValue "\n" = false ∧
    build ⟨none, none, none, none, none, none, none, some "\n", none⟩
      = .error (EsiError.ConfigError "user_agent") :=
  ⟨rfl, by decide,
   (invalid_user_agent_config_error
      ⟨none, none, none, none, none, none, none, some "\n", none⟩
      "\n" rfl (by decide)).1⟩

/-- C5: an authenticated endpoint call (`get_blueprints`) made when the
token state has no access token, or no expiration, or an expiration not in
the future, fails with `TokenExpiredError` and produces no request. -/
theorem authenticated_gating (esi : Esi) (character_id now : Nat)
    (h : esi.access_token = none ∨ esi.access_expiration = none ∨
         ∃ exp, esi.access_expiration = some exp ∧ exp ≤ now) :
    get_blueprints esi character_id now = .error EsiError.TokenExpiredError ∧
    ∀ r, get_blueprints esi character_id now ≠ Except.ok r := by
  have hb : get_blueprints esi character_id now
      = .error EsiError.TokenExpiredError := by
    cases hat : esi.access_token with
    | none =>
      cases hae : esi.access_expiration <;>
        simp [get_blueprints, dispatch, hat, hae]
    | some tok =>
      cases hae : esi.access_expiration with
      | none => simp [get_blueprints, dispatch, hat, hae]
      | some exp =>
        rcases h with h | h | ⟨e2, he2, hle⟩
        · rw [hat] at h; cases h
        · rw [hae] at h; cases h
        · rw [hae] at he2
          injection he2 with he2
          subst he2
          have hnl : ¬ now < exp := Nat.not_lt.mpr hle
          simp [get_blueprints, dispatch, hat, hae, hnl]
  refine ⟨hb, ?_⟩
  intro r hr
  rw [hb] at hr
  simp at hr

theorem authenticated_gating_witness :
    (sampleEsi.access_token = none ∨ sampleEsi.access_expiration = none ∨
       ∃ exp, sampleEsi.access_expiration = some exp ∧ exp ≤ 0) ∧
    get_blueprints sampleEsi 7 0 = .error EsiError.TokenExpiredError ∧
    ∀ r, get_blueprints sampleEsi 7 0 ≠ Except.ok r :=
  ⟨Or.inl rfl, authenticated_gating sampleEsi 7 0 (Or.inl rfl)⟩

/-- C6: a public endpoint call (`get_public_info`) issues the same request
for every token state — replacing the whole token triple (and the clock)
leaves the request unchanged — and, for a client produced by `build`, the
request carries no `Authorization` header. -/
theorem public_request_token_independent (b : EsiBuilder) (esi : Esi)
    (h : build b = Except.ok esi) (character_id now : Nat) :
    (∀ tok exp rtk now2,
       get_public_info
         { esi with access_token := tok, access_expiration := exp,
                    refresh_token := rtk }
         character_id now2
         = get_public_info esi character_id now) ∧
    (∀ r, get_public_info esi character_id now = Except.ok r →
       ∀ v, ("Authorization", v) ∉ r.headers) := by
  constructor
  · intro tok exp rtk now2
    rfl
  · intro r hr v hv
    obtain ⟨cid, cs, cb, ua, h1, h2, h3, h4, h5, he⟩ := build_ok_cases h
    subst he
    simp [get_public_info, dispatch] at hr
    subst hr
    simp at hv

theorem public_request_token_independent_witness :
    (∀ tok exp rtk now2,
       get_public_info
         { sampleEsi with access_token := tok, access_expiration := exp,
                          refresh_token := rtk }
         7 now2
         = get_public_info sampleEsi 7 0) ∧
    (∀ r, get_public_info sampleEsi 7 0 = Except.ok r →
       ∀ v, ("Authorization", v) ∉ r.headers) :=
  public_request_token_independent sampleBuilder sampleEsi rfl 7 0

/-- C8: the transport produced by `build` carries exactly the `User-Agent`
and `Accept: application/json` default headers and never an `Authorization`
default header — whatever token triple was supplied to the builder — while
the bearer token of an authenticated call is attached per request by the
dispatcher. -/
theorem default_headers_no_token (b : EsiBuilder) (e : Esi)
    (h : build b = Except.ok e) :
    (∃ ua, b.user_agent = some ua ∧
       e.client.default_headers =
         [("User-Agent", ua), ("Accept", "application/json")]) ∧
    (∀ v, ("Authorization", v) ∉ e.client.default_headers) ∧
    (∀ tok exp now verb path, e.access_token = some tok →
       e.access_expiration = some exp → now < exp →
       dispatch e RequestType.Authenticated verb path now =
         Except.ok { verb := verb, path := path,
                     headers := e.client.default_headers ++
                       [("Authorization", "Bearer " ++ tok)] }) := by
  obtain ⟨cid, cs, cb, ua, h1, h2, h3, h4, h5, he⟩ := build_ok_cases h
  subst he
  refine ⟨⟨ua, h4, rfl⟩, ?_, ?_⟩
  · intro v hv
    simp at hv
  · intro tok exp now verb path hat hae hlt
    simp only at hat hae
    simp [dispatch, hat, hae, hlt]

theorem default_headers_no_token_witness :
    (∃ ua, tokenBuilder.user_agent = some ua ∧
       tokenEsi.client.default_headers =
         [("User-Agent", ua), ("Accept", "application/json")]) ∧
    (∀ v, ("Authorization", v) ∉ tokenEsi.client.default_headers) ∧
    (∀ tok exp now verb path, tokenEsi.access_token = some tok →
       tokenEsi.access_expiration = some exp → now < exp →
       dispatch tokenEsi RequestType.Authenticated verb path now =
         Except.ok { verb := verb, path := path,
                     headers := tokenEsi.client.default_headers ++
                       [("Authorization", "Bearer " ++ tok)] }) :=
  default_headers_no_token tokenBuilder tokenEsi rfl

/-- C10: on a successful `build` the instance's access token, access
expiration and refresh token are exactly the builder's current values
(`none` when never set) — the optional token triple is passed through
unchanged — and every builder setter updates only its own field. -/
theorem token_passthrough (b : EsiBuilder) (e : Esi)
    (h : build b = Except.ok e) :
    e.access_token = b.access_token ∧
    e.access_expiration = b.access_expiration ∧
    e.refresh_token = b.refresh_token ∧
    (∀ v, b.set_version v = { b with version := some v }) ∧
    (∀ v, b.set_client_id v = { b with client_id := some v }) ∧
    (∀ v, b.set_client_secret v = { b with client_secret := some v }) ∧
    (∀ v, b.set_callback_url v = { b with callback_url := some v }) ∧
    (∀ v, b.set_access_token v = { b with access_token := v }) ∧
    (∀ v, b.set_access_expiration v = { b with access_expiration := v }) ∧
    (∀ v, b.set_refresh_token v = { b with refresh_token := v }) ∧
    (∀ v, b.set_user_agent v = { b with user_agent := some v }) ∧
    (∀ v, b.set_http_timeout v = { b with http_timeout := v }) := by
  obtain ⟨cid, cs, cb, ua, h1, h2, h3, h4, h5, he⟩ := build_ok_cases h
  subst he
  exact ⟨rfl, rfl, rfl, fun _ => rfl, fun _ => rfl, fun _ => rfl, fun _ => rfl,
         fun _ => rfl, fun _ => rfl, fun _ => rfl, fun _ => rfl, fun _ => rfl⟩

theorem token_passthrough_witness :
    tokenEsi.access_token = tokenBuilder.access_token ∧
    tokenEsi.access_expiration = tokenBuilder.access_expiration ∧
    tokenEsi.refresh_token = tokenBuilder.refresh_token ∧
    (∀ v, tokenBuilder.set_version v = { tokenBuilder with version := some v }) ∧
    (∀ v, tokenBuilder.set_client_id v =
        { tokenBuilder with client_id := some v }) ∧
    (∀ v, tokenBuilder.set_client_secret v =
        { tokenBuilder with client_secret := some v }) ∧
    (∀ v, tokenBuilder.set_callback_url v =
        { tokenBuilder with callback_url := some v }) ∧
    (∀ v, tokenBuilder.set_access_token v =
        { tokenBuilder with access_token := v }) ∧
    (∀ v, tokenBuilder.set_access_expiration v =
        { tokenBuilder with access_expiration := v }) ∧
    (∀ v, tokenBuilder.set_refresh_token v =
        { tokenBuilder with refresh_token := v }) ∧
    (∀ v, tokenBuilder.set_user_agent v =
        { tokenBuilder with user_agent := some v }) ∧
    (∀ v, tokenBuilder.set_http_timeout v =
        { tokenBuilder with http_timeout := v }) :=
  token_passthrough tokenBuilder tokenEsi rfl


